import Mathlib

/-!
Verification of the psychopy shape subsystem (`psychopy/visual/shape.py` and
`psychopy/visual/target.py`) against its natural-language specification.

The Python classes are shallowly embedded: pure fragments become Lean
functions, stateful attribute setters become explicit state-passing
functions on record types, and code that can raise becomes `Except`.
External collaborators (the GLU tessellator `psychopy.contrib.tesselate`,
the unit-conversion helpers, the `Color` object, the logging module) are
not part of the analysed sources; they are abstracted as parameters or,
where a claim depends on them, modelled from the specification and marked
as such in the doc comment.
-/

set_option autoImplicit false

/-- A 2-D vertex, one `(x, y)` pair of `shape.py`.  Coordinates are modelled
as rationals (the Python floats are used only for exact structural
bookkeeping in the code paths analysed here). -/
abbrev Pt := ℚ × ℚ

namespace PsychoPy

/-! ## `ShapeStim._tesselate` (`shape.py` lines 498-531) -/

/-- Result state written by `ShapeStim._tesselate`: the saved border loop,
the stored `_tesselVertices` fill array, and the value of `self.closeShape`
after the call (the method may downgrade it to `False`). -/
structure TessOutcome where
  border : List Pt
  tesselVertices : List Pt
  closeShapeAfter : Bool
  deriving DecidableEq, Repr

/-- Embedding of `ShapeStim._tesselate` (`shape.py` lines 498-531).

`tessResult` stands for the vertex list returned by the external GLU
tessellator `tesselate.tesselate(loops)`; the Python code consults it only
when `closeShape` is true (when `closeShape` is false the tessellator is
never invoked, which here shows up as the result being independent of
`tessResult`).

Faithful to the source:
* `self.border = copy.deepcopy(newVertices)` always;
* if `not self.closeShape or tessVertices == []`: store the raw input
  vertices as `_tesselVertices` and set `self.closeShape = False`;
* `elif len(tessVertices) % 3`: raise `tesselate.TesselateError`;
* else store the tessellated vertices, `closeShape` unchanged. -/
def tesselateStep (closeShape : Bool) (newVertices : List Pt)
    (tessResult : List Pt) : Except String TessOutcome :=
  if ¬closeShape then
    Except.ok ⟨newVertices, newVertices, false⟩
  else if tessResult = [] then
    Except.ok ⟨newVertices, newVertices, false⟩
  else if tessResult.length % 3 ≠ 0 then
    Except.error "Could not properly tesselate"
  else
    Except.ok ⟨newVertices, tessResult, closeShape⟩

/-! ## Dirty-flag state machine of `ShapeStim` / `BaseShapeStim`

`shape.py` keeps the derived pixel-space vertex array in
`self.__dict__['verticesPix']`, guarded by the boolean `_needVertexUpdate`.
The mutators in the analysed sources (`size`, `vertices`) set the flag; the
`verticesPix` property getter (lines 552-561) recomputes on access while
the flag is set.  The two counters below are ghost state recording how
often the recomputation and the tessellation were run, so that the lazy
coalescing contract can be stated. -/

/-- The mutable attribute state of a `ShapeStim` relevant to the
dirty-flag protocol, plus ghost counters for recomputations. -/
structure ShapeState where
  vertices : List Pt
  size : Pt
  pos : Pt
  ori : ℚ
  needVertexUpdate : Bool
  verticesPix : List Pt
  recomputeCount : Nat
  tessCount : Nat
  deriving DecidableEq, Repr

/-- Embedding of the `size` attribute setter (`shape.py` lines 295-306):
stores the value and sets `self._needVertexUpdate = True`. -/
def ShapeState.setSize (s : ShapeState) (v : Pt) : ShapeState :=
  { s with size := v, needVertexUpdate := true }

/-- Embedding of the `ShapeStim.vertices` attribute setter (`shape.py`
lines 533-550): stores the value, sets `self._needVertexUpdate = True`, and
invokes `self._tesselate(self.vertices)` (ghost-counted by `tessCount`). -/
def ShapeState.setVerts (s : ShapeState) (v : List Pt) : ShapeState :=
  { s with vertices := v, needVertexUpdate := true,
           tessCount := s.tessCount + 1 }

/-- Modelled from the spec: the `pos` setter lives in `BaseVisualStim`
(`psychopy/visual/basevisual.py`), which is not among the analysed sources;
spec section 4.4 states that any mutator on position marks the shape
`VerticesDirty` and does not re-tessellate. -/
def ShapeState.setPos (s : ShapeState) (v : Pt) : ShapeState :=
  { s with pos := v, needVertexUpdate := true }

/-- Modelled from the spec: the `ori` setter lives in `BaseVisualStim`,
not among the analysed sources; spec section 4.4 states that any mutator on
orientation marks the shape `VerticesDirty` and does not re-tessellate. -/
def ShapeState.setOri (s : ShapeState) (v : ℚ) : ShapeState :=
  { s with ori := v, needVertexUpdate := true }

/-- Embedding of the `verticesPix` property getter (`shape.py` lines
552-561): if `self._needVertexUpdate` it calls `self._updateVertices()` and
returns the cached array.  The transform itself (`_updateVertices`, in
`ContainerMixin`, not among the analysed sources) is abstracted as the
function argument `f`; modelled from the spec (section 4.4): the recompute
clears the dirty flag and refreshes the cache. -/
def ShapeState.readVerticesPix (f : List Pt → Pt → Pt → ℚ → List Pt)
    (s : ShapeState) : List Pt × ShapeState :=
  if s.needVertexUpdate then
    let pix := f s.vertices s.size s.pos s.ori
    (pix, { s with verticesPix := pix, needVertexUpdate := false,
                   recomputeCount := s.recomputeCount + 1 })
  else
    (s.verticesPix, s)

/-- One mutation of the dirty-flag protocol: which attribute is assigned. -/
inductive Mut where
  | verts (v : List Pt)
  | size (v : Pt)
  | pos (v : Pt)
  | ori (v : ℚ)
  deriving DecidableEq, Repr

/-- Whether a mutation assigns the raw vertices (and hence re-tessellates). -/
def Mut.isVerts : Mut → Bool
  | .verts _ => true
  | _ => false

/-- Apply one attribute mutation to the shape state. -/
def ShapeState.applyMut (s : ShapeState) : Mut → ShapeState
  | .verts v => s.setVerts v
  | .size v => s.setSize v
  | .pos v => s.setPos v
  | .ori v => s.setOri v

/-- Apply a sequence of attribute mutations, left to right. -/
def ShapeState.applyMuts (s : ShapeState) (ms : List Mut) : ShapeState :=
  ms.foldl ShapeState.applyMut s

/-- A concrete transform pipeline used to instantiate witnesses. -/
def sampleTransform : List Pt → Pt → Pt → ℚ → List Pt :=
  fun vs _ _ _ => vs

/-- A concrete clean shape state used to instantiate witnesses. -/
def sampleShapeState : ShapeState :=
  ⟨[], (1, 1), (0, 0), 0, false, [], 0, 0⟩

/-! ## Vertex-input normalization (`vertices` setters)

`BaseShapeStim.vertices` (`shape.py` lines 315-331) and
`ShapeStim.vertices` (lines 533-550) accept Python values of various
shapes.  The dynamic input is embedded as a tree of numbers, strings and
lists, mirroring what `numpy.array` receives. -/

/-- A Python value passed to the `vertices` setter: a number, a string, or
a (possibly nested) list. -/
inductive PyVal where
  | num (x : ℚ)
  | str (s : String)
  | list (l : List PyVal)

/-- Interpret a Python value as a single `(x, y)` point (numpy shape
`(2,)`). -/
def asPt : PyVal → Option Pt
  | .list [.num x, .num y] => some (x, y)
  | _ => none

/-- Interpret a list of Python values as a list of points (rows of an
`Nx2` array); fails as soon as one row is not a point. -/
def ptsOf : List PyVal → Option (List Pt)
  | [] => some []
  | x :: xs =>
    match asPt x, ptsOf xs with
    | some p, some ps => some (p :: ps)
    | _, _ => none

/-- Interpret a Python value as one vertex loop (an `Nx2` array). -/
def asLoop : PyVal → Option (List Pt)
  | .list l => ptsOf l
  | _ => none

/-- Interpret a list of Python values as a list of vertex loops; fails as
soon as one entry is not a loop. -/
def loopsOf : List PyVal → Option (List (List Pt))
  | [] => some []
  | x :: xs =>
    match asLoop x, loopsOf xs with
    | some l, some ls => some (l :: ls)
    | _, _ => none

/-- Interpret a Python value as a list of vertex loops. -/
def asLoops : PyVal → Option (List (List Pt))
  | .list l => loopsOf l
  | _ => none

/-- The canonical form a vertex assignment is normalized to: a single
point, one `Nx2` loop, or a list of loops. -/
inductive NormVerts where
  | single (p : Pt)
  | nx2 (l : List Pt)
  | loops (ls : List (List Pt))
  deriving DecidableEq, Repr

/-- Modelled from the spec: `val2array` (`psychopy.tools.arraytools`) is
not among the analysed sources.  Spec section 4.1: the setter "accepts
either a named-preset string, a single Loop (sequence of (x,y) pairs, or
exactly one pair, or a single scalar treated as a degenerate zero loop),
or a sequence of Loops.  Normalizes scalar/point shorthand into the
Nx2 / list-of-Nx2 canonical form.  Fails with
`ShapeError::InvalidVertexShape` if the normalized shape is neither a
single-point, an Nx2 array, nor a nonempty list of such arrays." -/
def val2array (v : PyVal) : Except String NormVerts :=
  match v with
  | .num x => Except.ok (.single (x, x))
  | _ =>
    match asPt v with
    | some p => Except.ok (.single p)
    | none =>
      match asLoop v with
      | some l =>
        if l.isEmpty then Except.error "InvalidVertexShape"
        else Except.ok (.nx2 l)
      | none =>
        match asLoops v with
        | some loops =>
          if loops.isEmpty || loops.any List.isEmpty then
            Except.error "InvalidVertexShape"
          else Except.ok (.loops loops)
        | none => Except.error "InvalidVertexShape"

/-- The fixed `"cross"` vertex table (`shape.py` lines 45-58). -/
def crossVerts : List Pt :=
  [(-0.1, 0.5), (0.1, 0.5), (0.1, 0.1), (0.5, 0.1), (0.5, -0.1),
   (0.1, -0.1), (0.1, -0.5), (-0.1, -0.5), (-0.1, -0.1), (-0.5, -0.1),
   (-0.5, 0.1), (-0.1, 0.1)]

/-- The fixed `"star7"` vertex table (`shape.py` lines 59-62). -/
def star7Verts : List Pt :=
  [(0.0, 0.5), (0.09, 0.18), (0.39, 0.31), (0.19, 0.04), (0.49, -0.11),
   (0.16, -0.12), (0.22, -0.45), (0.0, -0.2), (-0.22, -0.45),
   (-0.16, -0.12), (-0.49, -0.11), (-0.19, 0.04), (-0.39, 0.31),
   (-0.09, 0.18)]

/-- The `knownShapes` preset table (`shape.py` lines 44-63). -/
def knownShapesList : List (String × List Pt) :=
  [("cross", crossVerts), ("star7", star7Verts)]

/-- Resolve a named-shape preset, as `newVerts in knownShapes` does. -/
def lookupShape (s : String) : Option (List Pt) :=
  knownShapesList.lookup s

/-- Encode one point back into the Python value `[x, y]`. -/
def encodePt (p : Pt) : PyVal := .list [.num p.1, .num p.2]

/-- Encode a loop back into the Python value `[[x1, y1], ...]`. -/
def encodeLoop (l : List Pt) : PyVal := .list (l.map encodePt)

/-- Embedding of the `ShapeStim.vertices` attribute setter validation
(`shape.py` lines 533-550): a string naming a known shape is first replaced
by its preset vertex table, then the value is normalized and validated by
`val2array`; on success the normalized data is stored (and tessellation is
triggered, see `tesselateStep`). -/
def verticesSet : PyVal → Except String NormVerts
  | .str s =>
    match lookupShape s with
    | some pts => val2array (encodeLoop pts)
    | none => val2array (.str s)
  | v => val2array v

/-- Whether a Python value parses as a single point. -/
def isPtVal (v : PyVal) : Bool := (asPt v).isSome

/-- Whether a Python value parses as a nonempty vertex loop. -/
def isNeLoopVal (v : PyVal) : Bool :=
  match asLoop v with
  | some l => !l.isEmpty
  | none => false

/-- The claim-side well-formedness condition on vertex input, written
directly from the specification's words: a scalar, a known preset name, a
single point, a nonempty `Nx2` array, or a nonempty list of nonempty `Nx2`
arrays. -/
def wellFormedVerts : PyVal → Bool
  | .num _ => true
  | .str s => (lookupShape s).isSome
  | .list l =>
    (asPt (.list l)).isSome || (!l.isEmpty && l.all isPtVal) ||
      (!l.isEmpty && l.all isNeLoopVal)

/-! ## Draw protocol (`shape.py` lines 339-395 and 563-626)

The GL submissions of a `draw()` call are embedded as the list of draw
commands issued, in order.  State set-up/tear-down calls (shader bind,
texture-unit clearing, matrix push/pop) surround the submissions
unconditionally and carry no data, so only the two conditional
`glDrawArrays` submissions are recorded. -/

/-- The GL primitive modes used by the two draw methods. -/
inductive GLPrim where
  | polygon
  | triangles
  | lineLoop
  | lineStrip
  deriving DecidableEq, Repr

/-- One `glDrawArrays` submission: a fill pass or a border pass. -/
inductive DrawCmd where
  | fillArrays (prim : GLPrim) (n : Nat)
  | borderArrays (prim : GLPrim) (width : ℚ) (n : Nat)
  deriving DecidableEq, Repr

/-- Whether a draw command is a fill submission. -/
def DrawCmd.isFill : DrawCmd → Bool
  | .fillArrays _ _ => true
  | _ => false

/-- Whether a draw command is a border submission. -/
def DrawCmd.isBorder : DrawCmd → Bool
  | .borderArrays _ _ _ => true
  | _ => false

/-- Whether every border submission in a command uses the given primitive
(non-border commands pass vacuously). -/
def borderPrimIs (p0 : GLPrim) : DrawCmd → Bool
  | .borderArrays p _ _ => decide (p = p0)
  | _ => true

/-- Embedding of the submissions of `ShapeStim.draw` (`shape.py` lines
603-620): fill triangles are submitted when `self.closeShape` and
`self.verticesPix.shape[0] > 2` and `self._fillColor != None`; the border
is submitted when `self._borderColor != None and self.lineWidth` (truthy,
i.e. nonzero), as a `GL_LINE_LOOP` when `closeShape` else as a
`GL_LINE_STRIP`.  `nPix` is the tessellated pixel-vertex count,
`nBorderPix` the border pixel-vertex count. -/
def drawShapeStim (closeShape : Bool) (nPix : Nat) (hasFill hasBorder : Bool)
    (lineWidth : ℚ) (nBorderPix : Nat) : List DrawCmd :=
  (if closeShape && decide (nPix > 2) && hasFill then
    [DrawCmd.fillArrays .triangles nPix]
  else []) ++
  (if hasBorder && !(decide (lineWidth = 0)) then
    [DrawCmd.borderArrays (if closeShape then .lineLoop else .lineStrip)
      lineWidth nBorderPix]
  else [])

/-- Embedding of the submissions of `BaseShapeStim.draw` (`shape.py` lines
378-390): a filled `GL_POLYGON` when `nVerts > 2` and a fill color is
present (no close-shape condition here), then the border when a border
color is present and `self.lineWidth != 0.0`. -/
def drawBaseShapeStim (closeShape : Bool) (nVerts : Nat)
    (hasFill hasBorder : Bool) (lineWidth : ℚ) : List DrawCmd :=
  (if decide (nVerts > 2) && hasFill then
    [DrawCmd.fillArrays .polygon nVerts]
  else []) ++
  (if hasBorder && !(decide (lineWidth = 0)) then
    [DrawCmd.borderArrays (if closeShape then .lineLoop else .lineStrip)
      lineWidth nVerts]
  else [])

/-! ## Color mutation (`BaseShapeStim.setFillColor`, `shape.py` 275-293) -/

/-- The color-related state of a `BaseShapeStim`.  The external `Color`
object (`psychopy.colors`) is abstracted as an additive value; the logging
collaborator as a list of emitted messages. -/
structure ColorState where
  colorSpace : String
  fillColor : ℤ
  lineColor : ℤ
  log : List String
  deriving DecidableEq, Repr

/-- Embedding of `BaseShapeStim.setFillColor` (`shape.py` lines 275-293):
an explicit `colorSpace` argument is stored first; then the operation token
selects assignment (`''` or `'='`), increment (`'+'`), decrement (`'-'`),
or - for any other token - `logging.error(...)` with no change to the
color. -/
def setFillColor (st : ColorState) (c : ℤ) (cs : Option String)
    (operation : String) : ColorState :=
  let st1 :=
    match cs with
    | some sp => { st with colorSpace := sp }
    | none => st
  if operation = "" ∨ operation = "=" then
    { st1 with fillColor := c }
  else if operation = "+" then
    { st1 with fillColor := st1.fillColor + c }
  else if operation = "-" then
    { st1 with fillColor := st1.fillColor - c }
  else
    { st1 with
      log := st1.log ++ ["Operation '" ++ operation ++ "' not recognised."] }

/-! ## Line width (`BaseShapeStim.lineWidth` setter, `shape.py` 167-177) -/

/-- Embedding of the `lineWidth` attribute setter (`shape.py` lines
167-177): the value is always stored unchanged (no clamping); the over-127
warning is logged only when the stimulus `isinstance(self,
psychopy.visual.Line)` and the value `isinstance(value, (int, float))` and
`value > 127`.  Returns the stored value and the emitted log messages. -/
def lineWidthSet (isLine : Bool) (isNumeric : Bool) (value : ℚ) :
    ℚ × List String :=
  (value,
   if isLine && isNumeric && decide (value > 127) then
     ["lineWidth is greater than max width supported by OpenGL."]
   else [])

/-! ## `TargetStim` (`target.py`) -/

/-- The state of a `TargetStim` relevant to its dict export and radius
protocol: the `size[1]` components of the two nested `ShapeStim`s, their
line widths, and their optional ("no paint") fill/border colors.  The
external `Color` object is abstracted as a rational; `none` is the
absent/falsy color. -/
structure TargetState where
  outerSizeY : ℚ
  innerSizeY : ℚ
  outerLineWidth : ℚ
  innerLineWidth : ℚ
  outerFill : Option ℚ
  outerBorder : Option ℚ
  innerFill : Option ℚ
  innerBorder : Option ℚ
  deriving DecidableEq, Repr

/-- A value exported by `TargetStim.__iter__`: a number or a color. -/
inductive TVal where
  | num (x : ℚ)
  | col (c : ℚ)
  deriving DecidableEq, Repr

/-- `TargetStim.radius` / `TargetStim.outerRadius` getter (`target.py`
lines 112-114 and 125-127): `self.outer.size[1] / 2`. -/
def TargetStim.radius (t : TargetState) : ℚ := t.outerSizeY / 2

/-- `TargetStim.innerRadius` getter (`target.py` lines 136-138):
`self.inner.size[1] / 2`. -/
def TargetStim.innerRadius (t : TargetState) : ℚ := t.innerSizeY / 2

/-- Embedding of `TargetStim.__iter__` (`target.py` lines 167-190): the
eight ioHub key/value pairs, with absent outer colors replaced by the
window background color and absent inner colors replaced by the already
resolved outer fill/border colors. -/
def TargetStim.iterPairs (t : TargetState) (winColor : ℚ) :
    List (String × TVal) :=
  let fillColor :=
    match t.outerFill with
    | some c => c
    | none => winColor
  let borderColor :=
    match t.outerBorder with
    | some c => c
    | none => winColor
  let innerFillColor :=
    match t.innerFill with
    | some c => c
    | none => fillColor
  let innerBorderColor :=
    match t.innerBorder with
    | some c => c
    | none => borderColor
  [("outer_diameter", TVal.num (TargetStim.radius t * 2)),
   ("outer_stroke_width", TVal.num t.outerLineWidth),
   ("outer_fill_color", TVal.col fillColor),
   ("outer_line_color", TVal.col borderColor),
   ("inner_diameter", TVal.num (TargetStim.innerRadius t * 2)),
   ("inner_stroke_width", TVal.num t.innerLineWidth),
   ("inner_fill_color", TVal.col innerFillColor),
   ("inner_line_color", TVal.col innerBorderColor)]

/-- Modelled from the spec: `psychopy.layout.Size` (the unit conversion
used by the radius setters, `target.py` lines 129-134 and 140-145) is not
among the analysed sources; spec section 6 describes it as a
unit-conversion service mapping (value, declared unit, window) to device
pixels.  It is modelled as a linear map with conversion factor `k`. -/
def layoutPix (k : ℚ) (v : ℚ) : ℚ := k * v

/-- Embedding of the `outerRadius` setter (`target.py` lines 129-134):
converts `value * 2` to pixels and stores it as the (square) outer size. -/
def TargetStim.setOuterRadius (k : ℚ) (t : TargetState) (v : ℚ) :
    TargetState :=
  { t with outerSizeY := layoutPix k (v * 2) }

/-- Embedding of the `innerRadius` setter (`target.py` lines 140-145):
converts `value * 2` to pixels and stores it as the (square) inner size. -/
def TargetStim.setInnerRadius (k : ℚ) (t : TargetState) (v : ℚ) :
    TargetState :=
  { t with innerSizeY := layoutPix k (v * 2) }

/-- Embedding of the `radius` property setter (`target.py` lines 116-123):
computes `scale = innerRadius / outerRadius`, sets the outer radius to the
new value, then sets the inner radius to `value * scale`. -/
def TargetStim.setRadius (k : ℚ) (t : TargetState) (v : ℚ) : TargetState :=
  let scale := TargetStim.innerRadius t / TargetStim.radius t
  TargetStim.setInnerRadius k (TargetStim.setOuterRadius k t v) (v * scale)

/-- A concrete target state used to instantiate witnesses. -/
def sampleTarget : TargetState :=
  ⟨2, 1, 1, 1, none, none, none, none⟩

end PsychoPy

namespace PsychoPy

theorem ShapeState.applyMut_needVertexUpdate (s : ShapeState) (m : Mut) :
    (s.applyMut m).needVertexUpdate = true := by
  cases m <;> rfl

theorem ShapeState.applyMut_recomputeCount (s : ShapeState) (m : Mut) :
    (s.applyMut m).recomputeCount = s.recomputeCount := by
  cases m <;> rfl

theorem ShapeState.applyMut_tessCount (s : ShapeState) (m : Mut) :
    (s.applyMut m).tessCount =
      s.tessCount + (if m.isVerts then 1 else 0) := by
  cases m <;> rfl

theorem ShapeState.applyMuts_needVertexUpdate (ms : List Mut) :
    ∀ s : ShapeState, ms ≠ [] →
      (s.applyMuts ms).needVertexUpdate = true := by
  induction ms with
  | nil => intro s h; exact absurd rfl h
  | cons m rest ih =>
    intro s _
    by_cases hrest : rest = []
    · subst hrest
      simp [ShapeState.applyMuts, List.foldl,
            ShapeState.applyMut_needVertexUpdate]
    · simpa [ShapeState.applyMuts, List.foldl] using
        ih (s.applyMut m) hrest

theorem ShapeState.applyMuts_recomputeCount (ms : List Mut) :
    ∀ s : ShapeState, (s.applyMuts ms).recomputeCount = s.recomputeCount := by
  induction ms with
  | nil => intro s; rfl
  | cons m rest ih =>
    intro s
    simpa [ShapeState.applyMuts, List.foldl,
           ShapeState.applyMut_recomputeCount] using
      ih (s.applyMut m)

theorem ShapeState.applyMuts_tessCount (ms : List Mut) :
    ∀ s : ShapeState, (s.applyMuts ms).tessCount =
      s.tessCount + (ms.filter Mut.isVerts).length := by
  induction ms with
  | nil => intro s; simp [ShapeState.applyMuts]
  | cons m rest ih =>
    intro s
    have h1 := ih (s.applyMut m)
    simp only [ShapeState.applyMuts, List.foldl] at h1 ⊢
    rw [h1, ShapeState.applyMut_tessCount]
    cases hm : m.isVerts
    all_goals simp [List.filter, hm]
    all_goals omega

end PsychoPy

/-- C1: with `closeShape = False`, `_tesselate` never consults the
tessellator: for every vertex input and every possible tessellator output
the call succeeds, the stored fill-vertex array `_tesselVertices` equals the
raw input vertices, and the result is independent of `tessResult`
(tessellation skipped, i.e. the tessellated contribution is empty). -/
theorem tesselate_open_skips_tessellation (vs tessResult : List Pt) :
    PsychoPy.tesselateStep false vs tessResult =
      Except.ok ⟨vs, vs, false⟩ := by
  simp [PsychoPy.tesselateStep]

/-- C2: for a closed shape on which the tessellator yields zero triangles
(`tessVertices == []`, e.g. collinear points), `_tesselate` does not raise:
the stored fill vertices are the raw input vertices and `closeShape` is
downgraded to `False`, so the border is later drawn as an open strip. -/
theorem tesselate_degenerate_degrades_gracefully (vs : List Pt) :
    PsychoPy.tesselateStep true vs [] = Except.ok ⟨vs, vs, false⟩ := by
  simp [PsychoPy.tesselateStep]

/-- C3 counterexample: the claim states that, for a closed shape, whenever
`_tesselate` does not raise, the stored fill-vertex count is a multiple
of 3.  That is false when the tessellator yields zero triangles: for the
closed two-point input `[(0,0), (1,0)]` (collinear, so the GLU tessellator
returns `[]`) the call succeeds and stores the two raw input vertices as
fill vertices, and `2 % 3 = 2 ≠ 0`. -/
theorem tesselate_mod3_counterexample :
    PsychoPy.tesselateStep true [((0 : ℚ), 0), (1, 0)] [] =
        Except.ok ⟨[((0 : ℚ), 0), (1, 0)], [((0 : ℚ), 0), (1, 0)], false⟩ ∧
      ([((0 : ℚ), 0), (1, 0)].length % 3 ≠ 0) := by
  constructor
  · simp [PsychoPy.tesselateStep]
  · decide

/-- C3 (amended): for a closed shape, `_tesselate` raises the tessellation
error exactly when the tessellator output is non-empty with length not a
multiple of 3 (raised immediately, no retry); on every success where the
tessellator output is non-empty the stored fill-vertex count is a multiple
of 3 (when the output is empty the raw input vertices are stored instead,
with no constraint on their count). -/
theorem tesselate_closed_mod3 (vs tessResult : List Pt) :
    ((PsychoPy.tesselateStep true vs tessResult).isOk = false ↔
        (tessResult ≠ [] ∧ tessResult.length % 3 ≠ 0)) ∧
      (∀ o : PsychoPy.TessOutcome,
        PsychoPy.tesselateStep true vs tessResult = Except.ok o →
        tessResult ≠ [] → o.tesselVertices.length % 3 = 0) := by
  unfold PsychoPy.tesselateStep
  by_cases hempty : tessResult = []
  · subst hempty
    simp [Except.isOk, Except.toBool]
  · by_cases hmod : tessResult.length % 3 = 0
    · simp [hempty, hmod, Except.isOk, Except.toBool]
    · simp [hempty, hmod, Except.isOk, Except.toBool]

/-- Witness for C3 (amended) at a concrete input: a closed triangle whose
tessellator output is three vertices is stored with a fill-vertex count
divisible by 3. -/
theorem tesselate_closed_mod3_witness :
    (⟨[((0 : ℚ), 0)], [((0 : ℚ), 0), (0, 1), (1, 0)], true⟩ :
        PsychoPy.TessOutcome).tesselVertices.length % 3 = 0 :=
  (tesselate_closed_mod3 [((0 : ℚ), 0)] [((0 : ℚ), 0), (0, 1), (1, 0)]).2
    ⟨[((0 : ℚ), 0)], [((0 : ℚ), 0), (0, 1), (1, 0)], true⟩
    (by simp [PsychoPy.tesselateStep]) (by decide)

/-- C4: the pixel-vertex recomputation is lazy and coalesced.  For every
transform pipeline `f`, every state and every nonempty mutation sequence:
(1) the mutations leave the dirty flag set, (2) mutations alone never
recompute, (3) the first read after the mutations recomputes exactly once,
(4) and clears the flag, (5) a second read with no mutation in between
performs no further recomputation, (6) tessellation is re-run exactly once
per raw-vertex assignment and never for size/pos/ori mutations. -/
theorem verticesPix_lazy_coalesced (f : List Pt → Pt → Pt → ℚ → List Pt)
    (s : PsychoPy.ShapeState) (ms : List PsychoPy.Mut) (h : ms ≠ []) :
    (s.applyMuts ms).needVertexUpdate = true ∧
    (s.applyMuts ms).recomputeCount = s.recomputeCount ∧
    ((s.applyMuts ms).readVerticesPix f).2.recomputeCount
        = s.recomputeCount + 1 ∧
    ((s.applyMuts ms).readVerticesPix f).2.needVertexUpdate = false ∧
    (∀ s' : PsychoPy.ShapeState,
        ((s'.readVerticesPix f).2.readVerticesPix f).2.recomputeCount
          = (s'.readVerticesPix f).2.recomputeCount) ∧
    (s.applyMuts ms).tessCount
        = s.tessCount + (ms.filter PsychoPy.Mut.isVerts).length := by
  have hd := PsychoPy.ShapeState.applyMuts_needVertexUpdate ms s h
  have hr := PsychoPy.ShapeState.applyMuts_recomputeCount ms s
  refine ⟨hd, hr, ?_, ?_, ?_, PsychoPy.ShapeState.applyMuts_tessCount ms s⟩
  · simp [PsychoPy.ShapeState.readVerticesPix, hd, hr]
  · simp [PsychoPy.ShapeState.readVerticesPix, hd]
  · intro s'
    by_cases hs : s'.needVertexUpdate
    · simp [PsychoPy.ShapeState.readVerticesPix, hs]
    · simp [PsychoPy.ShapeState.readVerticesPix, hs]

/-- Witness for C4 at a concrete input: one size mutation followed by one
read recomputes exactly once. -/
theorem verticesPix_lazy_coalesced_witness :
    ((PsychoPy.sampleShapeState.applyMuts
        [PsychoPy.Mut.size (2, 2)]).readVerticesPix
          PsychoPy.sampleTransform).2.recomputeCount
      = PsychoPy.sampleShapeState.recomputeCount + 1 :=
  (verticesPix_lazy_coalesced PsychoPy.sampleTransform
    PsychoPy.sampleShapeState [PsychoPy.Mut.size (2, 2)] (by simp)).2.2.1

namespace PsychoPy

theorem ptsOf_isSome :
    ∀ l : List PyVal, (ptsOf l).isSome = l.all isPtVal := by
  intro l
  induction l with
  | nil => rfl
  | cons x xs ih =>
    cases hx : asPt x with
    | none => simp [ptsOf, hx, isPtVal]
    | some p =>
      cases hxs : ptsOf xs with
      | none =>
        rw [hxs] at ih
        simp [ptsOf, hx, hxs, isPtVal, ← ih]
      | some ps =>
        rw [hxs] at ih
        simp [ptsOf, hx, hxs, isPtVal, ← ih]

theorem ptsOf_isEmpty (l : List PyVal) (pl : List Pt)
    (h : ptsOf l = some pl) : pl.isEmpty = l.isEmpty := by
  cases l with
  | nil =>
    simp [ptsOf] at h
    simp [← h]
  | cons x xs =>
    cases hx : asPt x with
    | none => simp [ptsOf, hx] at h
    | some p =>
      cases hxs : ptsOf xs with
      | none => simp [ptsOf, hx, hxs] at h
      | some ps =>
        simp [ptsOf, hx, hxs] at h
        simp [← h]

theorem loopsOf_isSome :
    ∀ ls : List PyVal,
      (loopsOf ls).isSome = ls.all (fun v => (asLoop v).isSome) := by
  intro ls
  induction ls with
  | nil => rfl
  | cons x xs ih =>
    cases hx : asLoop x with
    | none => simp [loopsOf, hx]
    | some l =>
      cases hxs : loopsOf xs with
      | none =>
        rw [hxs] at ih
        simp [loopsOf, hx, hxs, ← ih]
      | some ls2 =>
        rw [hxs] at ih
        simp [loopsOf, hx, hxs, ← ih]

theorem isNeLoopVal_isSome (v : PyVal) (h : isNeLoopVal v = true) :
    (asLoop v).isSome = true := by
  unfold isNeLoopVal at h
  cases hv : asLoop v with
  | none => rw [hv] at h; exact absurd h (by simp)
  | some l => rfl

theorem loopsOf_some (ls : List PyVal) :
    ∀ loops : List (List Pt), loopsOf ls = some loops →
      loops.isEmpty = ls.isEmpty ∧
        loops.any List.isEmpty = !ls.all isNeLoopVal := by
  induction ls with
  | nil =>
    intro loops h
    simp [loopsOf] at h
    subst h
    simp
  | cons x xs ih =>
    intro loops h
    cases hx : asLoop x with
    | none => simp [loopsOf, hx] at h
    | some l =>
      cases hxs : loopsOf xs with
      | none => simp [loopsOf, hx, hxs] at h
      | some ls2 =>
        simp [loopsOf, hx, hxs] at h
        obtain ⟨-, h2⟩ := ih ls2 hxs
        subst h
        simp [h2, isNeLoopVal, hx, Bool.not_and]

theorem asPt_encodeLoop (l : List Pt) : asPt (encodeLoop l) = none := by
  cases l with
  | nil => rfl
  | cons p t => rfl

theorem ptsOf_map_encode :
    ∀ l : List Pt, ptsOf (l.map encodePt) = some l := by
  intro l
  induction l with
  | nil => rfl
  | cons p t ih => simp [ptsOf, encodePt, asPt, ih]

theorem val2array_encodeLoop (l : List Pt) (h : l ≠ []) :
    val2array (encodeLoop l) = Except.ok (NormVerts.nx2 l) := by
  have h1 : asPt (encodeLoop l) = none := asPt_encodeLoop l
  have h2 : asLoop (encodeLoop l) = some l := by
    simp [encodeLoop, asLoop, ptsOf_map_encode]
  have h3 : l.isEmpty = false := by
    cases l with
    | nil => exact absurd rfl h
    | cons p t => rfl
  rw [encodeLoop] at h1 h2 ⊢
  simp [val2array, h1, h2, h3]

theorem val2array_list_loops (l : List PyVal) (loops : List (List Pt))
    (hp : asPt (.list l) = none) (hpts : ptsOf l = none)
    (hloops : loopsOf l = some loops) :
    val2array (.list l) =
      if loops.isEmpty || loops.any List.isEmpty then
        Except.error "InvalidVertexShape"
      else Except.ok (.loops loops) := by
  have h1 : asLoop (.list l) = none := by simp [asLoop, hpts]
  have h2 : asLoops (.list l) = some loops := by simp [asLoops, hloops]
  unfold val2array
  rw [hp, h1, h2]

theorem val2array_list_err (l : List PyVal)
    (hp : asPt (.list l) = none) (hpts : ptsOf l = none)
    (hloops : loopsOf l = none) :
    val2array (.list l) = Except.error "InvalidVertexShape" := by
  have h1 : asLoop (.list l) = none := by simp [asLoop, hpts]
  have h2 : asLoops (.list l) = none := by simp [asLoops, hloops]
  unfold val2array
  rw [hp, h1, h2]

theorem lookupShape_ne_nil (s : String) (pts : List Pt)
    (h : lookupShape s = some pts) : pts ≠ [] := by
  simp only [lookupShape, knownShapesList, List.lookup] at h
  cases h1 : s == "cross" with
  | true =>
    simp [h1] at h
    subst h
    simp [crossVerts]
  | false =>
    simp [h1] at h
    cases h2 : s == "star7" with
    | true =>
      simp [h2] at h
      subst h
      simp [star7Verts]
    | false => simp [h2] at h

end PsychoPy

/-- C5: vertex assignment validates its input at assignment time.  The
`ShapeStim.vertices` setter succeeds exactly on the well-formed inputs (a
scalar, a known preset name, a single point, a nonempty `Nx2` array, or a
nonempty list of nonempty `Nx2` arrays, per the spec's normalization
contract) and fails immediately with the invalid-vertex-shape error on
everything else; moreover every well-formed `Nx2` input is stored as
exactly its normalized point list. -/
theorem verticesSet_validates :
    (∀ v : PsychoPy.PyVal,
        (PsychoPy.verticesSet v).isOk = PsychoPy.wellFormedVerts v) ∧
      (∀ l : List Pt, l ≠ [] →
        PsychoPy.verticesSet (PsychoPy.encodeLoop l) =
          Except.ok (PsychoPy.NormVerts.nx2 l)) := by
  constructor
  · intro v
    cases v with
    | num x => rfl
    | str s =>
      cases hl : PsychoPy.lookupShape s with
      | none =>
        simp [PsychoPy.verticesSet, hl, PsychoPy.val2array, PsychoPy.asPt,
              PsychoPy.asLoop, PsychoPy.asLoops, PsychoPy.wellFormedVerts,
              Except.isOk, Except.toBool]
      | some pts =>
        have hok :=
          PsychoPy.val2array_encodeLoop pts (PsychoPy.lookupShape_ne_nil s pts hl)
        simp [PsychoPy.verticesSet, hl, hok, PsychoPy.wellFormedVerts,
              Except.isOk, Except.toBool]
    | list l =>
      cases hp : PsychoPy.asPt (.list l) with
      | some p =>
        simp [PsychoPy.verticesSet, PsychoPy.val2array, hp,
              PsychoPy.wellFormedVerts, Except.isOk, Except.toBool]
      | none =>
        cases hpts : PsychoPy.ptsOf l with
        | some pl =>
          have hall : l.all PsychoPy.isPtVal = true := by
            rw [← PsychoPy.ptsOf_isSome]
            simp [hpts]
          have hemp := PsychoPy.ptsOf_isEmpty l pl hpts
          simp [PsychoPy.verticesSet, PsychoPy.val2array, hp,
                PsychoPy.asLoop, hpts, PsychoPy.wellFormedVerts, hall, hemp,
                Except.isOk, Except.toBool]
          cases hle : l.isEmpty with
          | false => simp [hle] at hemp; simp [hemp, hle]
          | true => simp [hle] at hemp; simp [hemp, hle]
        | none =>
          have hallp : l.all PsychoPy.isPtVal = false := by
            rw [← PsychoPy.ptsOf_isSome]
            simp [hpts]
          cases hloops : PsychoPy.loopsOf l with
          | some loops =>
            obtain ⟨he, ha⟩ := PsychoPy.loopsOf_some l loops hloops
            have hwf : PsychoPy.wellFormedVerts (.list l)
                = (!l.isEmpty && l.all PsychoPy.isNeLoopVal) := by
              simp [PsychoPy.wellFormedVerts, hp, hallp]
            have hcond : (loops.isEmpty || loops.any List.isEmpty)
                = (l.isEmpty || !l.all PsychoPy.isNeLoopVal) := by
              rw [he, ha]
            show (PsychoPy.val2array (.list l)).isOk
                = PsychoPy.wellFormedVerts (.list l)
            rw [PsychoPy.val2array_list_loops l loops hp hpts hloops,
                hwf, hcond]
            cases l.isEmpty <;> cases l.all PsychoPy.isNeLoopVal <;>
              simp [Except.isOk, Except.toBool]
          | none =>
            have hne : l.all PsychoPy.isNeLoopVal = false := by
              cases hcon : l.all PsychoPy.isNeLoopVal with
              | false => rfl
              | true =>
                exfalso
                rw [List.all_eq_true] at hcon
                have hTrue : l.all (fun v => (PsychoPy.asLoop v).isSome)
                    = true := by
                  rw [List.all_eq_true]
                  intro v hv
                  exact PsychoPy.isNeLoopVal_isSome v (hcon v hv)
                have hSome : (PsychoPy.loopsOf l).isSome = true := by
                  rw [PsychoPy.loopsOf_isSome]
                  exact hTrue
                rw [hloops] at hSome
                simp at hSome
            have hwf : PsychoPy.wellFormedVerts (.list l) = false := by
              simp [PsychoPy.wellFormedVerts, hp, hallp, hne]
            show (PsychoPy.val2array (.list l)).isOk
                = PsychoPy.wellFormedVerts (.list l)
            rw [PsychoPy.val2array_list_err l hp hpts hloops, hwf]
            rfl
  · intro l h
    exact PsychoPy.val2array_encodeLoop l h

/-- Witness for C5 at a concrete input: the well-formed 3-point triangle
loop is accepted and stored as its normalized `Nx2` point list. -/
theorem verticesSet_validates_witness :
    PsychoPy.verticesSet
        (PsychoPy.encodeLoop [((0 : ℚ), 0), (1, 0), (0, 1)]) =
      Except.ok (PsychoPy.NormVerts.nx2 [((0 : ℚ), 0), (1, 0), (0, 1)]) :=
  verticesSet_validates.2 [((0 : ℚ), 0), (1, 0), (0, 1)] (by simp)

/-- C6 counterexample: the claim states the fill pass is submitted exactly
when the pixel vertex count exceeds 2 and a fill color is present.  In
`ShapeStim.draw` (`shape.py` 604-606) the fill submission additionally
requires `self.closeShape`: an open shape (`closeShape = False`) with 3
pixel vertices and a fill color submits no fill at all (only the border
strip). -/
theorem draw_fill_counterexample :
    PsychoPy.drawShapeStim false 3 true true 1 3 =
        [PsychoPy.DrawCmd.borderArrays PsychoPy.GLPrim.lineStrip 1 3] ∧
      (PsychoPy.drawShapeStim false 3 true true 1 3).any
          PsychoPy.DrawCmd.isFill = false := by
  constructor <;> rfl

/-- C6 (amended): in every draw call all fill submissions precede all
border submissions (the command list is its fill part followed by its
border part); in `ShapeStim.draw` the fill triangles are submitted exactly
when `closeShape` is true, the pixel-vertex count exceeds 2, and a fill
color is present (in `BaseShapeStim.draw` the close-shape condition is
absent); in both, the border is submitted exactly when a border color is
present and the line width is nonzero, as a line loop when `closeShape`
and as a line strip otherwise. -/
theorem drawProtocol_fill_border (c : Bool) (n : Nat) (f b : Bool)
    (w : ℚ) (m : Nat) :
    ((PsychoPy.drawShapeStim c n f b w m).any PsychoPy.DrawCmd.isFill
        = (c && decide (n > 2) && f)) ∧
    ((PsychoPy.drawShapeStim c n f b w m).any PsychoPy.DrawCmd.isBorder
        = (b && !(decide (w = 0)))) ∧
    (PsychoPy.drawShapeStim c n f b w m =
      (PsychoPy.drawShapeStim c n f b w m).filter PsychoPy.DrawCmd.isFill ++
        (PsychoPy.drawShapeStim c n f b w m).filter
          PsychoPy.DrawCmd.isBorder) ∧
    ((PsychoPy.drawShapeStim c n f b w m).all
        (PsychoPy.borderPrimIs
          (if c then PsychoPy.GLPrim.lineLoop else PsychoPy.GLPrim.lineStrip))
      = true) ∧
    ((PsychoPy.drawBaseShapeStim c n f b w).any PsychoPy.DrawCmd.isFill
        = (decide (n > 2) && f)) ∧
    ((PsychoPy.drawBaseShapeStim c n f b w).any PsychoPy.DrawCmd.isBorder
        = (b && !(decide (w = 0)))) ∧
    (PsychoPy.drawBaseShapeStim c n f b w =
      (PsychoPy.drawBaseShapeStim c n f b w).filter PsychoPy.DrawCmd.isFill ++
        (PsychoPy.drawBaseShapeStim c n f b w).filter
          PsychoPy.DrawCmd.isBorder) ∧
    ((PsychoPy.drawBaseShapeStim c n f b w).all
        (PsychoPy.borderPrimIs
          (if c then PsychoPy.GLPrim.lineLoop else PsychoPy.GLPrim.lineStrip))
      = true) := by
  cases hc1 : (c && decide (n > 2) && f) <;>
    cases hb : (b && !(decide (w = 0))) <;>
      cases hc3 : (decide (n > 2) && f) <;>
        simp [PsychoPy.drawShapeStim, PsychoPy.drawBaseShapeStim, hc1, hb,
              hc3, PsychoPy.DrawCmd.isFill, PsychoPy.DrawCmd.isBorder,
              PsychoPy.borderPrimIs]

/-- C7: color mutation with an unsupported operator token is a logged
no-op.  For every state, color argument, optional color space, and
operator token outside the supported set, `setFillColor` leaves the fill
color unchanged and reports via the logging collaborator (without
raising); for the supported tokens it assigns, adds, or subtracts. -/
theorem setFillColor_unsupported_noop (st : PsychoPy.ColorState) (c : ℤ)
    (cs : Option String) (op : String) :
    (op ∉ (["", "=", "+", "-"] : List String) →
        (PsychoPy.setFillColor st c cs op).fillColor = st.fillColor ∧
          (PsychoPy.setFillColor st c cs op).log =
            st.log ++ ["Operation '" ++ op ++ "' not recognised."]) ∧
      ((op = "" ∨ op = "=") →
        (PsychoPy.setFillColor st c cs op).fillColor = c) ∧
      (op = "+" →
        (PsychoPy.setFillColor st c cs op).fillColor = st.fillColor + c) ∧
      (op = "-" →
        (PsychoPy.setFillColor st c cs op).fillColor = st.fillColor - c) := by
  refine ⟨?_, ?_, ?_, ?_⟩
  · intro h
    simp only [List.mem_cons, List.mem_singleton, not_or] at h
    obtain ⟨h1, h2, h3, h4⟩ := h
    cases cs <;>
      simp [PsychoPy.setFillColor, h1, h2, h3, h4]
  · intro h
    cases cs <;> simp [PsychoPy.setFillColor, h]
  · intro h
    subst h
    cases cs <;> simp [PsychoPy.setFillColor]
  · intro h
    subst h
    cases cs <;> simp [PsychoPy.setFillColor]

/-- Witness for C7 at a concrete input: the unrecognized operator `"*"`
leaves the fill color 5 unchanged and appends the error report. -/
theorem setFillColor_unsupported_noop_witness :
    (PsychoPy.setFillColor ⟨"rgb", 5, 0, []⟩ 3 none "*").fillColor = 5 ∧
      (PsychoPy.setFillColor ⟨"rgb", 5, 0, []⟩ 3 none "*").log =
        [] ++ ["Operation '" ++ "*" ++ "' not recognised."] :=
  (setFillColor_unsupported_noop ⟨"rgb", 5, 0, []⟩ 3 none "*").1 (by decide)

/-- C8 counterexample: the claim states that setting a line width of 200
logs a warning for every shape.  The setter (`shape.py` 174-176) emits the
warning only when `isinstance(self, psychopy.visual.Line)`: for a shape
that is not a `Line`, assigning 200 stores 200 and logs nothing. -/
theorem lineWidth_warning_counterexample :
    PsychoPy.lineWidthSet false true 200 = (200, []) := by
  rfl

/-- C8 (amended): assigning any line width always succeeds and stores the
assigned value unclamped (so 200 stays 200); the over-127 warning is
logged exactly when the stimulus is a `Line` instance, the value is
numeric, and it exceeds 127 - for other shapes no warning is emitted. -/
theorem lineWidth_unclamped (isLine isNumeric : Bool) (v : ℚ) :
    (PsychoPy.lineWidthSet isLine isNumeric v).1 = v ∧
      ((PsychoPy.lineWidthSet isLine isNumeric v).2 ≠ [] ↔
        (isLine = true ∧ isNumeric = true ∧ v > 127)) := by
  refine ⟨rfl, ?_⟩
  simp only [PsychoPy.lineWidthSet]
  split_ifs with h
  · simpa [and_assoc] using h
  · simpa [and_assoc] using h

/-- C9: the dict-like iteration of `TargetStim` yields the eight
diameter/stroke-width/fill-color/line-color pairs, and every absent ("no
paint") color is resolved before export: the outer shape's absent fill or
border color falls back to the window background color, and the inner
shape's absent fill or border color falls back to the already-resolved
outer fill or border color respectively. -/
theorem targetIter_resolves_colors (t : PsychoPy.TargetState) (w : ℚ) :
    ((PsychoPy.TargetStim.iterPairs t w).map Prod.fst =
      ["outer_diameter", "outer_stroke_width", "outer_fill_color",
       "outer_line_color", "inner_diameter", "inner_stroke_width",
       "inner_fill_color", "inner_line_color"]) ∧
    ((PsychoPy.TargetStim.iterPairs t w).lookup "outer_diameter" =
      some (PsychoPy.TVal.num (PsychoPy.TargetStim.radius t * 2))) ∧
    ((PsychoPy.TargetStim.iterPairs t w).lookup "outer_stroke_width" =
      some (PsychoPy.TVal.num t.outerLineWidth)) ∧
    ((PsychoPy.TargetStim.iterPairs t w).lookup "outer_fill_color" =
      some (PsychoPy.TVal.col (t.outerFill.getD w))) ∧
    ((PsychoPy.TargetStim.iterPairs t w).lookup "outer_line_color" =
      some (PsychoPy.TVal.col (t.outerBorder.getD w))) ∧
    ((PsychoPy.TargetStim.iterPairs t w).lookup "inner_diameter" =
      some (PsychoPy.TVal.num (PsychoPy.TargetStim.innerRadius t * 2))) ∧
    ((PsychoPy.TargetStim.iterPairs t w).lookup "inner_stroke_width" =
      some (PsychoPy.TVal.num t.innerLineWidth)) ∧
    ((PsychoPy.TargetStim.iterPairs t w).lookup "inner_fill_color" =
      some (PsychoPy.TVal.col (t.innerFill.getD (t.outerFill.getD w)))) ∧
    ((PsychoPy.TargetStim.iterPairs t w).lookup "inner_line_color" =
      some (PsychoPy.TVal.col
        (t.innerBorder.getD (t.outerBorder.getD w)))) := by
  cases h1 : t.outerFill <;> cases h2 : t.outerBorder <;>
    cases h3 : t.innerFill <;> cases h4 : t.innerBorder <;>
      simp [PsychoPy.TargetStim.iterPairs, h1, h2, h3, h4, List.lookup]

/-- C10: setting the `radius` property on a target whose outer radius is
nonzero sets the outer radius to the assigned value (mapped through the
unit-to-pixel conversion) and rescales the inner radius by the same
factor, preserving the inner/outer radius ratio (stated in
cross-multiplied form, valid even when the new value is zero). -/
theorem setRadius_preserves_ratio (k : ℚ) (t : PsychoPy.TargetState)
    (v : ℚ) (h : PsychoPy.TargetStim.radius t ≠ 0) :
    PsychoPy.TargetStim.radius (PsychoPy.TargetStim.setRadius k t v)
        = k * v ∧
      PsychoPy.TargetStim.innerRadius (PsychoPy.TargetStim.setRadius k t v) *
          PsychoPy.TargetStim.radius t
        = PsychoPy.TargetStim.innerRadius t *
            PsychoPy.TargetStim.radius
              (PsychoPy.TargetStim.setRadius k t v) := by
  have ho : t.outerSizeY ≠ 0 := by
    intro h0
    apply h
    unfold PsychoPy.TargetStim.radius
    rw [h0]
    norm_num
  simp only [PsychoPy.TargetStim.setRadius, PsychoPy.TargetStim.setInnerRadius,
             PsychoPy.TargetStim.setOuterRadius, PsychoPy.TargetStim.radius,
             PsychoPy.TargetStim.innerRadius, PsychoPy.layoutPix]
  constructor
  · ring
  · field_simp
    ring

/-- Witness for C10 at a concrete input: on the sample target (outer
radius 1, inner radius 1/2), assigning radius 3 with conversion factor 2
makes the outer radius 6. -/
theorem setRadius_preserves_ratio_witness :
    PsychoPy.TargetStim.radius
        (PsychoPy.TargetStim.setRadius 2 PsychoPy.sampleTarget 3) = 6 :=
  ((setRadius_preserves_ratio 2 PsychoPy.sampleTarget 3
    (by norm_num [PsychoPy.TargetStim.radius,
                  PsychoPy.sampleTarget])).1).trans (by norm_num)
